import Mathlib

/-!
Verification of the in-process Terraform provider protocol adapter
(`provider/grpc_client.go`): the schema cache (`getSchema`,
`getResourceSchema`, `getProviderMetaSchema`), the value codec
(`decodeDynamicValue` plus the msgpack marshalling used by `ReadResource`),
the error translator (`grpcErr`), and the two representative operations
(`ReadResource`, `ImportResourceState`).

The Go functions are shallowly embedded as executable Lean functions.
Go panics are modelled as `Except.error`; the underlying in-process server
(`c.server`) is a function parameter; the mutex-guarded schema field is
modelled by explicit state passing (the adapter's methods receive the
client record and return any updated client record).

The external go-cty msgpack/json codec and the schema-implied-type
computation are library code outside this repository; they are modelled
from the spec (see the doc comments of the codec definitions below) over a
representative fragment of the cty type system (strings, numbers, bools,
and two-element tuples).
-/

deriving instance DecidableEq for Except

/-- Severity of a diagnostic entry (`tfdiags.Severity`). -/
inductive Severity where
  | error
  | warning
deriving DecidableEq, Repr

/-- A diagnostic entry: severity, summary, optional detail
(`tfdiags.Diagnostic`, observed through its description). -/
structure Diag where
  severity : Severity
  summary : String
  detail : String
deriving DecidableEq, Repr

/-- Appending a plain Go error to a `tfdiags.Diagnostics` list produces an
error-severity diagnostic whose summary is the error text and whose detail
is empty. -/
def errDiag (msg : String) : Diag :=
  { severity := Severity.error, summary := msg, detail := "" }

/-- Whether a diagnostics list contains an error
(`tfdiags.Diagnostics.HasErrors`). -/
def hasErrors (ds : List Diag) : Bool :=
  ds.any (fun d => d.severity == Severity.error)

/-- The string `needle` occurs inside `hay`. -/
def containsStr (hay needle : String) : Prop :=
  ∃ s t, hay = s ++ needle ++ t

/-- gRPC status codes relevant to `grpcErr` (`google.golang.org/grpc/codes`);
`unknown` is what `status.Code` reports for an error that carries no status,
and the remaining constructors stand in for the other codes hit by the
default branch. -/
inductive StatusCode where
  | ok
  | canceled
  | unknown
  | invalidArgument
  | deadlineExceeded
  | unimplemented
  | unavailable
deriving DecidableEq, Repr

/-- A non-nil Go error as observed by `grpcErr`: the code that
`status.Code(err)` reports, and the text that `%v` formatting produces. -/
structure GoErr where
  code : StatusCode
  msg : String
deriving DecidableEq, Repr

/-- Modelled from the spec (§4.3, §3): the structural *implied type* derived
from a schema block, used to interpret wire values. The go-cty type system
(external library, not in src) is modelled by a representative fragment:
primitive strings, numbers and bools, plus two-element tuple types. -/
inductive CtyType where
  | stringT
  | numberT
  | boolT
  | tupleT (a b : CtyType)
deriving DecidableEq, Repr

/-- Modelled from the spec (§4.3, §3): go-cty values (external library, not
in src) over the modelled type fragment. `nullV ty` is the canonical null
value of type `ty` (`cty.NullVal(ty)`). -/
inductive CtyValue where
  | nullV (ty : CtyType)
  | stringV (s : String)
  | numberV (n : Int)
  | boolV (b : Bool)
  | tupleV (a b : CtyValue)
deriving DecidableEq, Repr

/-- Modelled from the spec (§4.3): a value conforms to a type, the
precondition of the round-trip law ("for any value well-typed under
`targetType`"). -/
def wellTyped : CtyValue → CtyType → Bool
  | CtyValue.nullV ty2, ty => decide (ty2 = ty)
  | CtyValue.stringV _, CtyType.stringT => true
  | CtyValue.numberV _, CtyType.numberT => true
  | CtyValue.boolV _, CtyType.boolT => true
  | CtyValue.tupleV a b, CtyType.tupleT ta tb => wellTyped a ta && wellTyped b tb
  | _, _ => false

/-- Modelled from the spec (§4.3): one unit of packed-binary wire data. The
byte-level msgpack framing of the external go-cty codec (not in src) is
abstracted to a token alphabet. -/
inductive Token where
  | tnull
  | tbool (b : Bool)
  | tnum (n : Int)
  | tstr (s : String)
  | ttup
deriving DecidableEq, Repr

/-- Modelled from the spec (§4.3): the serialization underlying
`msgpack.Marshal` (external go-cty library, not in src): a value becomes a
non-empty token stream, tuples by concatenating the component streams after
a tuple marker. -/
def encodeVal : CtyValue → List Token
  | CtyValue.nullV _ => [Token.tnull]
  | CtyValue.stringV s => [Token.tstr s]
  | CtyValue.numberV n => [Token.tnum n]
  | CtyValue.boolV b => [Token.tbool b]
  | CtyValue.tupleV a b => Token.ttup :: (encodeVal a ++ encodeVal b)

/-- Modelled from the spec (§4.3): the type-directed parser underlying
`msgpack.Unmarshal` (external go-cty library, not in src). Returns the
decoded value and the unconsumed remainder, or `none` for malformed data. -/
def decodeVal : CtyType → List Token → Option (CtyValue × List Token)
  | ty, Token.tnull :: rest => some (CtyValue.nullV ty, rest)
  | CtyType.stringT, Token.tstr s :: rest => some (CtyValue.stringV s, rest)
  | CtyType.numberT, Token.tnum n :: rest => some (CtyValue.numberV n, rest)
  | CtyType.boolT, Token.tbool b :: rest => some (CtyValue.boolV b, rest)
  | CtyType.tupleT ta tb, Token.ttup :: rest =>
    match decodeVal ta rest with
    | some (va, rest1) =>
      match decodeVal tb rest1 with
      | some (vb, rest2) => some (CtyValue.tupleV va vb, rest2)
      | none => none
    | none => none
  | _, _ => none

/-- Modelled from the spec (§4.3): `msgpack.Marshal(v, ty)` (external go-cty
library, not in src) — produces the packed-binary bytes for a conforming
value and an error for a non-conforming one. -/
def marshalTokens (v : CtyValue) (ty : CtyType) : Except String (List Token) :=
  if wellTyped v ty then Except.ok (encodeVal v)
  else Except.error "msgpack: invalid value for type"

/-- Modelled from the spec (§4.3): `msgpack.Unmarshal(bytes, ty)` (external
go-cty library, not in src) — a decode error is reported for malformed or
trailing data. -/
def unmarshalTokens (toks : List Token) (ty : CtyType) : Except String CtyValue :=
  match decodeVal ty toks with
  | some (v, []) => Except.ok v
  | _ => Except.error "msgpack: malformed"

/-- Modelled from the spec (§4.3): `ctyjson.Unmarshal(bytes, ty)` (external
go-cty library, not in src) — the text codec; modelled with the same token
structure as the packed codec since no claim distinguishes the two byte
formats, only which one is dispatched to. -/
def unmarshalJSONTokens (toks : List Token) (ty : CtyType) : Except String CtyValue :=
  match decodeVal ty toks with
  | some (v, []) => Except.ok v
  | _ => Except.error "json: malformed"

/-- `tfprotov5.DynamicValue`: the tagged wire value with a packed-binary
(`MsgPack`) and a text (`JSON`) variant; both empty means "no value". -/
structure DynamicValue where
  msgPack : List Token := []
  json : List Token := []
deriving DecidableEq, Repr

/-- Embedding of `decodeDynamicValue` (grpc_client.go): decode a
`DynamicValue` from either the msgpack or the JSON encoding; a `nil` value
(`none`) or a value with both variants empty decodes to the null value of
the target type. The Go `(cty.Value, error)` pair is modelled as `Except`
(callers use the value only when the error is nil). -/
def decodeDynamicValue (v : Option DynamicValue) (ty : CtyType) : Except String CtyValue :=
  match v with
  | none => Except.ok (CtyValue.nullV ty)
  | some dv =>
    if 0 < dv.msgPack.length then unmarshalTokens dv.msgPack ty
    else if 0 < dv.json.length then unmarshalJSONTokens dv.json ty
    else Except.ok (CtyValue.nullV ty)

/-- Building the outgoing `tfprotov5.DynamicValue{MsgPack: mp}` from a typed
value, as `ReadResource` does with `msgpack.Marshal`. -/
def encodeDynamicValue (v : CtyValue) (ty : CtyType) : Except String DynamicValue :=
  match marshalTokens v ty with
  | Except.error e => Except.error e
  | Except.ok mp => Except.ok { msgPack := mp }

/-- Character scan keeping only what follows the last slash seen so far
(accumulator in reverse order). -/
def lastSegChars : List Char → List Char → List Char
  | [], acc => acc.reverse
  | c :: cs, acc => if c = '/' then lastSegChars cs [] else lastSegChars cs (c :: acc)

/-- The last path segment of a slash-separated name (`path.Split`), used by
`grpcErr` to shorten the caller's fully-qualified function name. -/
def lastPathSegment (s : String) : String :=
  String.mk (lastSegChars s.data [])

/-- Embedding of `grpcErr` (grpc_client.go). `caller` models the result of
`runtime.Caller(1)` followed by `runtime.FuncForPC(pc).Name()`: `none` when
the caller frame cannot be recovered (`!ok`), otherwise the enclosing
function's fully-qualified name. `err` is `none` for a nil Go error. -/
def grpcErr (caller : Option String) (err : Option GoErr) : List Diag :=
  match err with
  | none => []
  | some e =>
    match caller with
    | none => [errDiag e.msg]
    | some fullName =>
      let requestName := lastPathSegment fullName
      match e.code with
      | StatusCode.unavailable =>
        [{ severity := Severity.error
           summary := "Plugin did not respond"
           detail := "The plugin encountered an error, and failed to respond to the "
             ++ requestName ++ " call. The plugin logs may contain more details." }]
      | StatusCode.canceled =>
        [{ severity := Severity.error
           summary := "Request cancelled"
           detail := "The " ++ requestName ++ " request was cancelled." }]
      | StatusCode.unimplemented =>
        [{ severity := Severity.error
           summary := "Unsupported plugin method"
           detail := "The " ++ requestName ++ " method is not supported by this plugin." }]
      | _ =>
        [{ severity := Severity.error
           summary := "Plugin error"
           detail := "The plugin returned an unexpected error from "
             ++ requestName ++ ": " ++ e.msg }]

/-- The fully-qualified function name that `runtime.FuncForPC` reports for
the `grpcErr` call site inside `ReadResource`, modelled from the Go runtime
naming convention for methods. -/
def readResourceFuncName : String :=
  "github.com/elserhumano/terracognita/provider.(*GRPCClient).ReadResource"

/-- The fully-qualified function name that `runtime.FuncForPC` reports for
the `grpcErr` call site inside `ImportResourceState`. -/
def importFuncName : String :=
  "github.com/elserhumano/terracognita/provider.(*GRPCClient).ImportResourceState"

/-- A schema block, exposing only what the adapter uses: its implied type
(`Block.ImpliedType()`, computed by external library code and therefore
carried as data here). -/
structure BlockSchema where
  impliedType : CtyType
deriving DecidableEq, Repr

/-- `providers.Schema`: an optional block (`Block` is a pointer in Go, `nil`
modelled as `none`). -/
structure PSchema where
  block : Option BlockSchema := none
deriving DecidableEq, Repr

/-- `providers.GetSchemaResponse`: the Schema Snapshot — provider schema,
provider-meta schema, per-resource-type schemas, and fetch diagnostics. -/
structure GetSchemaResponse where
  provider : PSchema := {}
  providerMeta : PSchema := {}
  resourceTypes : List (String × PSchema) := []
  diagnostics : List Diag := []
deriving DecidableEq, Repr

/-- The `GRPCClient` struct state visible to the embedded methods: the
mutex-guarded `schemas` field. The in-process server is passed separately
as a function parameter. -/
structure GRPCClient where
  schemas : GetSchemaResponse := {}
deriving DecidableEq, Repr

/-- `NopProvider.GetSchema`: the neutral empty snapshot. `GRPCClient` embeds
`NopProvider` and does not override `GetSchema`, so `c.GetSchema()` inside
`getSchema` resolves to this promoted method. -/
def NopProviderGetSchema : GetSchemaResponse := {}

/-- The observable outcome of one `getSchema` call: the client state after
the call, the returned snapshot (`Except.error` models the `panic` on fetch
diagnostics), and how many times the underlying schema-retrieval operation
(`c.GetSchema()`) was invoked during the call. -/
structure GetSchemaCall where
  client : GRPCClient
  result : Except String GetSchemaResponse
  fetches : Nat

/-- Embedding of `getSchema` (grpc_client.go). Under the lock it checks
`c.schemas.Provider.Block != nil` and returns the stored snapshot; otherwise
it calls `c.GetSchema()` (one fetch), panics if that reports error
diagnostics, and returns the fetched snapshot. The source contains no
assignment to `c.schemas`, so the returned client state equals the input
state on every path. -/
def getSchema (c : GRPCClient) : GetSchemaCall :=
  if c.schemas.provider.block.isSome then
    { client := c, result := Except.ok c.schemas, fetches := 0 }
  else
    let schemas := NopProviderGetSchema
    if hasErrors schemas.diagnostics then
      { client := c, result := Except.error "schema fetch returned error diagnostics", fetches := 1 }
    else
      { client := c, result := Except.ok schemas, fetches := 1 }

/-- Embedding of `getResourceSchema` (grpc_client.go): look the name up in
the snapshot's resource-type map; the `panic` for an unknown type is
modelled as `Except.error`. -/
def getResourceSchema (c : GRPCClient) (name : String) : Except String PSchema :=
  match (getSchema c).result with
  | Except.error e => Except.error e
  | Except.ok sch =>
    match sch.resourceTypes.lookup name with
    | none => Except.error ("unknown resource type " ++ name)
    | some s => Except.ok s

/-- Embedding of `getProviderMetaSchema` (grpc_client.go). -/
def getProviderMetaSchema (c : GRPCClient) : Except String PSchema :=
  match (getSchema c).result with
  | Except.error e => Except.error e
  | Except.ok sch => Except.ok sch.providerMeta

/-- Dereferencing `resSchema.Block.ImpliedType()`: a nil block would panic
in Go, modelled as `Except.error`. -/
def blockImpliedType : Option BlockSchema → Except String CtyType
  | none => Except.error "nil schema block"
  | some b => Except.ok b.impliedType

/-- A protocol-reported diagnostic entry (`tfprotov5.Diagnostic`): severity,
summary and detail as reported by the underlying server. -/
structure ProtoDiag where
  severity : Severity
  summary : String
  detail : String
deriving DecidableEq, Repr

/-- `tfprotov5.ReadResourceRequest` as built by `ReadResource`. -/
structure ProtoReadReq where
  typeName : String
  currentState : Option DynamicValue
  priv : List Nat
  providerMeta : Option DynamicValue := none
deriving DecidableEq, Repr

/-- `tfprotov5.ReadResourceResponse` as returned by the underlying server. -/
structure ProtoReadResp where
  diagnostics : List ProtoDiag := []
  newState : Option DynamicValue := none
  priv : List Nat := []
deriving DecidableEq, Repr

/-- `providers.ReadResourceRequest`: prior typed state, provider-meta typed
value, private blob. -/
structure ReadResourceRequest where
  typeName : String
  priorState : CtyValue
  providerMeta : CtyValue
  priv : List Nat := []
deriving DecidableEq, Repr

/-- `providers.ReadResourceResponse`: `newState = none` models the unset
(`cty.NilVal`) zero value, `priv = []` the nil byte slice. -/
structure ReadResourceResponse where
  newState : Option CtyValue := none
  diagnostics : List Diag := []
  priv : List Nat := []
deriving DecidableEq, Repr

/-- Outcome of the request-building prefix of `ReadResource` (schema
lookups and msgpack marshalling, lines 39-61): a panic, a marshal error that
becomes a diagnostic followed by an early return, or the built proto request
together with the resource's implied type. -/
inductive ReqBuild where
  | fatal (msg : String)
  | failed (d : Diag)
  | built (req : ProtoReadReq) (impliedTy : CtyType)
deriving DecidableEq, Repr

/-- The request-building prefix of `ReadResource` (grpc_client.go lines
39-61), in source order: resolve the resource schema, resolve the
provider-meta schema, marshal the prior state against the resource's implied
type, then — only if the meta schema's block is non-nil — marshal the meta
value and set the `ProviderMeta` field; otherwise that field stays unset. -/
def buildReadRequest (c : GRPCClient) (r : ReadResourceRequest) : ReqBuild :=
  match getResourceSchema c r.typeName with
  | Except.error e => ReqBuild.fatal e
  | Except.ok resSchema =>
    match getProviderMetaSchema c with
    | Except.error e => ReqBuild.fatal e
    | Except.ok metaSchema =>
      match blockImpliedType resSchema.block with
      | Except.error e => ReqBuild.fatal e
      | Except.ok ty =>
        match marshalTokens r.priorState ty with
        | Except.error err => ReqBuild.failed (errDiag err)
        | Except.ok mp =>
          let base : ProtoReadReq :=
            { typeName := r.typeName
              currentState := some { msgPack := mp }
              priv := r.priv }
          match metaSchema.block with
          | none => ReqBuild.built base ty
          | some mb =>
            match marshalTokens r.providerMeta mb.impliedType with
            | Except.error err => ReqBuild.failed (errDiag err)
            | Except.ok metaMP =>
              ReqBuild.built { base with providerMeta := some { msgPack := metaMP } } ty

/-- Embedding of `ReadResource` (grpc_client.go): build the proto request,
invoke the underlying server, translate a transport error through `grpcErr`
(whose `runtime.Caller` frame resolves to `ReadResource`), append the
protocol-reported diagnostics summary-only, decode the new state, and only
on decode success set the new state and relay the private blob. -/
def ReadResource (c : GRPCClient) (server : ProtoReadReq → Except GoErr ProtoReadResp)
    (r : ReadResourceRequest) : Except String ReadResourceResponse :=
  match buildReadRequest c r with
  | ReqBuild.fatal m => Except.error m
  | ReqBuild.failed d => Except.ok { diagnostics := [d] }
  | ReqBuild.built req ty =>
    match server req with
    | Except.error e =>
      Except.ok { diagnostics := grpcErr (some readResourceFuncName) (some e) }
    | Except.ok protoResp =>
      let diags := protoResp.diagnostics.map (fun d => errDiag d.summary)
      match decodeDynamicValue protoResp.newState ty with
      | Except.error err => Except.ok { diagnostics := diags ++ [errDiag err] }
      | Except.ok st =>
        Except.ok { newState := some st, diagnostics := diags, priv := protoResp.priv }

/-- `providers.ImportResourceStateRequest`. -/
structure ImportRR where
  typeName : String
  id : String
deriving DecidableEq, Repr

/-- `tfprotov5.ImportResourceStateRequest`. -/
structure ProtoImportReq where
  typeName : String
  id : String
deriving DecidableEq, Repr

/-- `tfprotov5.ImportedResource`: one imported-resource entry of the proto
response. -/
structure ProtoImportedResource where
  typeName : String
  state : Option DynamicValue
  priv : List Nat
deriving DecidableEq, Repr

/-- `tfprotov5.ImportResourceStateResponse`. -/
structure ProtoImportResp where
  importedResources : List ProtoImportedResource := []
  diagnostics : List ProtoDiag := []
deriving DecidableEq, Repr

/-- `providers.ImportedResource`: decoded entry in the adapter's import
response. -/
structure ImportedResource where
  typeName : String
  state : CtyValue
  priv : List Nat
deriving DecidableEq, Repr

/-- `providers.ImportResourceStateResponse`. -/
structure ImportResp where
  importedResources : List ImportedResource := []
  diagnostics : List Diag := []
deriving DecidableEq, Repr

/-- Outcome of processing one imported-resource entry inside the loop of
`ImportResourceState`: a panic from the schema lookup or nil block, a decode
error (appended as diagnostic, whole call returns), or the decoded entry. -/
inductive EntryResult where
  | fatal (msg : String)
  | bad (err : String)
  | good (res : ImportedResource)
deriving DecidableEq, Repr

/-- One iteration body of the import loop (grpc_client.go lines 99-112):
resolve the entry's own schema by its type name and decode its state against
that schema's implied type. -/
def decodeEntry (c : GRPCClient) (imp : ProtoImportedResource) : EntryResult :=
  match getResourceSchema c imp.typeName with
  | Except.error e => EntryResult.fatal e
  | Except.ok resSchema =>
    match blockImpliedType resSchema.block with
    | Except.error e => EntryResult.fatal e
    | Except.ok ty =>
      match decodeDynamicValue imp.state ty with
      | Except.error err => EntryResult.bad err
      | Except.ok st =>
        EntryResult.good { typeName := imp.typeName, state := st, priv := imp.priv }

/-- The `for _, imported := range protoResp.ImportedResources` loop of
`ImportResourceState`: `diags` and `acc` are the response's diagnostics and
imported-resources fields accumulated so far; a decode error appends its
diagnostic and returns the response as accumulated (the early `return
resp`). -/
def importLoop (c : GRPCClient) (diags : List Diag) (acc : List ImportedResource) :
    List ProtoImportedResource → Except String ImportResp
  | [] => Except.ok { importedResources := acc, diagnostics := diags }
  | imp :: rest =>
    match decodeEntry c imp with
    | EntryResult.fatal m => Except.error m
    | EntryResult.bad err =>
      Except.ok { importedResources := acc, diagnostics := diags ++ [errDiag err] }
    | EntryResult.good res => importLoop c diags (acc ++ [res]) rest

/-- Embedding of `ImportResourceState` (grpc_client.go): invoke the
underlying server, translate a transport error through `grpcErr`, append the
protocol-reported diagnostics summary-only, then run the per-entry
decode loop. -/
def ImportResourceState (c : GRPCClient)
    (server : ProtoImportReq → Except GoErr ProtoImportResp)
    (r : ImportRR) : Except String ImportResp :=
  match server { typeName := r.typeName, id := r.id } with
  | Except.error e =>
    Except.ok { diagnostics := grpcErr (some importFuncName) (some e) }
  | Except.ok protoResp =>
    importLoop c (protoResp.diagnostics.map (fun d => errDiag d.summary)) []
      protoResp.importedResources

/-- The imported-resources field of an import response, `[]` when the call
panicked. -/
def importedOf : Except String ImportResp → List ImportedResource
  | Except.ok resp => resp.importedResources
  | Except.error _ => []

/-- The diagnostics field of an import response, `[]` when the call
panicked. -/
def diagsOf : Except String ImportResp → List Diag
  | Except.ok resp => resp.diagnostics
  | Except.error _ => []

/-- A concrete implied type used by the examples: a widget resource with a
string id and a numeric count, modelled as a two-element tuple type. -/
def widgetType : CtyType := CtyType.tupleT CtyType.stringT CtyType.numberT

/-- Schema entry for the widget resource type. -/
def exResourceSchema : PSchema := { block := some { impliedType := widgetType } }

/-- A client whose Schema Snapshot is populated (provider block present,
widget resource declared, no provider-meta schema). -/
def exClient : GRPCClient :=
  { schemas :=
    { provider := { block := some { impliedType := CtyType.stringT } }
      providerMeta := {}
      resourceTypes := [("widget", exResourceSchema)]
      diagnostics := [] } }

/-- Like `exClient` but with a provider-meta schema configured. -/
def exClientMeta : GRPCClient :=
  { schemas :=
    { provider := { block := some { impliedType := CtyType.stringT } }
      providerMeta := { block := some { impliedType := CtyType.stringT } }
      resourceTypes := [("widget", exResourceSchema)]
      diagnostics := [] } }

/-- A client whose Schema Snapshot is still the zero value (unpopulated). -/
def freshClient : GRPCClient := {}

/-- A concrete widget value. -/
def exWidgetValue : CtyValue :=
  CtyValue.tupleV (CtyValue.stringV "w1") (CtyValue.numberV 3)

/-- A dynamic value whose packed bytes decode to `exWidgetValue` against
`widgetType`. -/
def exGoodState : DynamicValue := { msgPack := encodeVal exWidgetValue }

/-- A dynamic value whose packed bytes fail to decode against
`widgetType`. -/
def exBadState : DynamicValue := { msgPack := [Token.tbool true] }

/-- An imported-resource proto entry that decodes successfully. -/
def exGoodEntry : ProtoImportedResource :=
  { typeName := "widget", state := some exGoodState, priv := [7] }

/-- An imported-resource proto entry whose state fails to decode. -/
def exBadEntry : ProtoImportedResource :=
  { typeName := "widget", state := some exBadState, priv := [] }

/-- A proto import response with a valid first entry and an undecodable
second entry. -/
def exProtoImportResp : ProtoImportResp :=
  { importedResources := [exGoodEntry, exBadEntry] }

/-- A server whose import call returns `exProtoImportResp`. -/
def exServerC1 : ProtoImportReq → Except GoErr ProtoImportResp :=
  fun _ => Except.ok exProtoImportResp

/-- A concrete import request. -/
def exImportReq : ImportRR := { typeName := "widget", id := "w1" }

/-- The decoded form of `exGoodEntry`. -/
def exWidgetRes : ImportedResource :=
  { typeName := "widget", state := exWidgetValue, priv := [7] }

/-- A concrete read request against `exClient`. -/
def exReadReq : ReadResourceRequest :=
  { typeName := "widget", priorState := exWidgetValue
    providerMeta := CtyValue.nullV CtyType.stringT, priv := [9] }

/-- The proto read request that `buildReadRequest exClient exReadReq`
produces. -/
def exProtoReadReq : ProtoReadReq :=
  { typeName := "widget", currentState := some { msgPack := encodeVal exWidgetValue }
    priv := [9] }

/-- A read request carrying a well-typed provider-meta value, for the
meta-schema client. -/
def exReadReqMeta : ReadResourceRequest :=
  { typeName := "widget", priorState := exWidgetValue
    providerMeta := CtyValue.stringV "meta", priv := [9] }

/-- An `unavailable` transport error. -/
def exUnavailErr : GoErr :=
  { code := StatusCode.unavailable, msg := "transport is closing" }

/-- A server whose read call fails with `exUnavailErr`. -/
def exUnavailServer : ProtoReadReq → Except GoErr ProtoReadResp :=
  fun _ => Except.error exUnavailErr

/-- A proto read response with one warning diagnostic (with detail), a
decodable new state, and a private blob. -/
def exProtoReadResp : ProtoReadResp :=
  { diagnostics := [{ severity := Severity.warning
                      summary := "deprecated attribute"
                      detail := "attribute count is deprecated" }]
    newState := some exGoodState
    priv := [5] }

/-- A server whose read call returns `exProtoReadResp`. -/
def exReadServer : ProtoReadReq → Except GoErr ProtoReadResp :=
  fun _ => Except.ok exProtoReadResp

/-- A proto read response whose new state fails to decode. -/
def exBadReadResp : ProtoReadResp := { newState := some exBadState, priv := [5] }

/-- A server whose read call returns `exBadReadResp`. -/
def exBadReadServer : ProtoReadReq → Except GoErr ProtoReadResp :=
  fun _ => Except.ok exBadReadResp

/-- Every value encodes to a non-empty token stream. -/
theorem encodeVal_ne_nil (v : CtyValue) : encodeVal v ≠ [] := by
  cases v <;> simp [encodeVal]

/-- Parser/serializer round trip: a value well-typed under `ty` decodes back
from its encoding, leaving any remainder untouched. -/
theorem decodeVal_encodeVal (v : CtyValue) : ∀ (ty : CtyType) (rest : List Token),
    wellTyped v ty = true → decodeVal ty (encodeVal v ++ rest) = some (v, rest) := by
  induction v with
  | nullV ty2 =>
    intro ty rest h
    have hty : ty2 = ty := by simpa [wellTyped] using h
    subst hty
    cases ty2 <;> simp [encodeVal, decodeVal]
  | stringV s =>
    intro ty rest h
    cases ty <;> simp [wellTyped] at h
    simp [encodeVal, decodeVal]
  | numberV n =>
    intro ty rest h
    cases ty <;> simp [wellTyped] at h
    simp [encodeVal, decodeVal]
  | boolV b =>
    intro ty rest h
    cases ty <;> simp [wellTyped] at h
    simp [encodeVal, decodeVal]
  | tupleV a b iha ihb =>
    intro ty rest h
    cases ty with
    | stringT => simp [wellTyped] at h
    | numberT => simp [wellTyped] at h
    | boolT => simp [wellTyped] at h
    | tupleT ta tb =>
      simp [wellTyped] at h
      have h1 := iha ta (encodeVal b ++ rest) h.1
      have h2 := ihb tb rest h.2
      simp [encodeVal, decodeVal, List.append_assoc, h1, h2]

/-- C5: for every target type T, decoding a Dynamic Value that is absent
(nil) or whose packed-binary and text variants are both empty returns the
canonical null value of T with no error; otherwise decoding uses the
packed-binary format when packed-binary bytes are present, and the text
format only when packed-binary bytes are absent and text bytes are present,
propagating any decode error. -/
theorem c5_decode_dispatch (ty : CtyType) (dv : DynamicValue) :
    decodeDynamicValue none ty = Except.ok (CtyValue.nullV ty)
  ∧ (dv.msgPack = [] → dv.json = [] →
      decodeDynamicValue (some dv) ty = Except.ok (CtyValue.nullV ty))
  ∧ (dv.msgPack ≠ [] → decodeDynamicValue (some dv) ty = unmarshalTokens dv.msgPack ty)
  ∧ (dv.msgPack = [] → dv.json ≠ [] →
      decodeDynamicValue (some dv) ty = unmarshalJSONTokens dv.json ty) := by
  refine ⟨rfl, ?_, ?_, ?_⟩
  · intro h1 h2
    simp [decodeDynamicValue, h1, h2]
  · intro h1
    simp [decodeDynamicValue, List.length_pos.mpr h1]
  · intro h1 h2
    simp [decodeDynamicValue, h1, List.length_pos.mpr h2]

/-- Witness for C5 at concrete inputs: an absent value, a value with both
variants empty, a value with packed bytes, and a value with only text
bytes. -/
theorem c5_decode_dispatch_witness :
    decodeDynamicValue none widgetType = Except.ok (CtyValue.nullV widgetType)
  ∧ decodeDynamicValue (some {}) widgetType = Except.ok (CtyValue.nullV widgetType)
  ∧ decodeDynamicValue (some exGoodState) widgetType =
      unmarshalTokens exGoodState.msgPack widgetType
  ∧ decodeDynamicValue (some { json := [Token.tnull] }) widgetType =
      unmarshalJSONTokens [Token.tnull] widgetType :=
  ⟨(c5_decode_dispatch widgetType {}).1,
   (c5_decode_dispatch widgetType {}).2.1 rfl rfl,
   (c5_decode_dispatch widgetType exGoodState).2.2.1 (by decide),
   (c5_decode_dispatch widgetType { json := [Token.tnull] }).2.2.2 rfl (by decide)⟩

/-- C8: for every value v well-typed under a target type T, encoding v to a
packed-binary Dynamic Value against T and then decoding that Dynamic Value
against T returns v. -/
theorem c8_roundtrip (v : CtyValue) (ty : CtyType) (h : wellTyped v ty = true) :
    ∃ dv, encodeDynamicValue v ty = Except.ok dv ∧
      decodeDynamicValue (some dv) ty = Except.ok v := by
  refine ⟨{ msgPack := encodeVal v }, ?_, ?_⟩
  · simp [encodeDynamicValue, marshalTokens, h]
  · have hlen : 0 < (encodeVal v).length := List.length_pos.mpr (encodeVal_ne_nil v)
    have hdec := decodeVal_encodeVal v ty [] h
    simp only [List.append_nil] at hdec
    simp [decodeDynamicValue, hlen, unmarshalTokens, hdec]

/-- Witness for C8: the concrete widget value round-trips through the
packed-binary Dynamic Value against the widget type. -/
theorem c8_roundtrip_witness :
    wellTyped exWidgetValue widgetType = true ∧
    ∃ dv, encodeDynamicValue exWidgetValue widgetType = Except.ok dv ∧
      decodeDynamicValue (some dv) widgetType = Except.ok exWidgetValue :=
  ⟨by decide, c8_roundtrip exWidgetValue widgetType (by decide)⟩

/-- If every entry of `good` decodes successfully to the corresponding entry
of `goodRes` and `bad` fails to decode with `err`, the import loop stops at
`bad`, never touches `rest`, and returns the entries decoded so far together
with the decode-error diagnostic. -/
theorem importLoop_abort (c : GRPCClient) (bad : ProtoImportedResource) (err : String)
    (rest : List ProtoImportedResource) (hbad : decodeEntry c bad = EntryResult.bad err) :
    ∀ (good : List ProtoImportedResource) (goodRes : List ImportedResource),
      List.Forall₂ (fun i res => decodeEntry c i = EntryResult.good res) good goodRes →
      ∀ (diags : List Diag) (acc : List ImportedResource),
        importLoop c diags acc (good ++ bad :: rest) =
          Except.ok { importedResources := acc ++ goodRes
                      diagnostics := diags ++ [errDiag err] } := by
  intro good goodRes hgood
  induction hgood with
  | nil =>
    intro diags acc
    simp [importLoop, hbad]
  | cons h htail ih =>
    intro diags acc
    simp only [List.cons_append, importLoop, h]
    simp only [List.append_eq]
    rw [ih]
    simp

/-- C1 counterexample: with the populated example client and a server
returning one decodable entry followed by one undecodable entry, the import
response carries the decode-error diagnostic yet its imported-resources
sequence is NOT empty — the first, valid entry is exposed, contradicting
the claim that no imported resources are returned when a decode fails. -/
theorem c1_counterexample :
    diagsOf (ImportResourceState exClient exServerC1 exImportReq) =
      [errDiag "msgpack: malformed"] ∧
    importedOf (ImportResourceState exClient exServerC1 exImportReq) = [exWidgetRes] ∧
    importedOf (ImportResourceState exClient exServerC1 exImportReq) ≠ [] := by
  refine ⟨by decide, by decide, by decide⟩

/-- C1 amended: for every import call in which some returned
imported-resource entry fails to decode, `ImportResourceState` returns a
response whose diagnostics end with the decode error; entries after the
failing one are not processed, but the entries that decoded successfully
before the failing one REMAIN in the response's imported-resources
sequence (partial results are returned). -/
theorem c1_import_failfast (c : GRPCClient)
    (server : ProtoImportReq → Except GoErr ProtoImportResp) (r : ImportRR)
    (protoResp : ProtoImportResp) (good rest : List ProtoImportedResource)
    (bad : ProtoImportedResource) (goodRes : List ImportedResource) (err : String)
    (hs : server { typeName := r.typeName, id := r.id } = Except.ok protoResp)
    (hsplit : protoResp.importedResources = good ++ bad :: rest)
    (hgood : List.Forall₂ (fun i res => decodeEntry c i = EntryResult.good res) good goodRes)
    (hbad : decodeEntry c bad = EntryResult.bad err) :
    ImportResourceState c server r =
      Except.ok { importedResources := goodRes
                  diagnostics :=
                    protoResp.diagnostics.map (fun d => errDiag d.summary)
                      ++ [errDiag err] } := by
  unfold ImportResourceState
  rw [hs]
  simp only [hsplit]
  rw [importLoop_abort c bad err rest hbad good goodRes hgood]
  simp

/-- Witness for C1 amended, at the concrete client/server of the
counterexample. -/
theorem c1_import_failfast_witness :
    ImportResourceState exClient exServerC1 exImportReq =
      Except.ok { importedResources := [exWidgetRes]
                  diagnostics := [errDiag "msgpack: malformed"] } := by
  have h := c1_import_failfast exClient exServerC1 exImportReq exProtoImportResp
    [exGoodEntry] [] exBadEntry [exWidgetRes] "msgpack: malformed"
    rfl rfl (List.Forall₂.cons (by decide) List.Forall₂.nil) (by decide)
  simpa using h

/-- C2 counterexample: on a client whose Schema Snapshot is unpopulated, the
first completed `getSchema` call performs an underlying fetch but does NOT
store the fetched snapshot (the client state is unchanged and still
unpopulated), and a second call performs another underlying fetch —
contradicting the claim that the first call stores the snapshot and
subsequent calls reuse it without fetching. -/
theorem c2_counterexample :
    (getSchema freshClient).fetches = 1 ∧
    (getSchema freshClient).client = freshClient ∧
    (getSchema freshClient).client.schemas.provider.block = none ∧
    (getSchema (getSchema freshClient).client).fetches = 1 := by
  refine ⟨by decide, by decide, by decide, by decide⟩

/-- C2 amended: `getSchema` never mutates the stored Schema Snapshot. When
the snapshot is already populated (provider block present) it is returned
with no underlying fetch; when it is unpopulated, every call — not only the
first — performs one underlying fetch and returns the fetched snapshot
without storing it (population of the `schemas` field happens elsewhere,
outside this function). -/
theorem c2_getSchema_no_store (c : GRPCClient) :
    (getSchema c).client = c
  ∧ (c.schemas.provider.block.isSome = true →
      (getSchema c).result = Except.ok c.schemas ∧ (getSchema c).fetches = 0)
  ∧ (c.schemas.provider.block.isSome = false → (getSchema c).fetches = 1) := by
  unfold getSchema
  cases h : c.schemas.provider.block.isSome <;>
    simp [h, NopProviderGetSchema, hasErrors]

/-- Witness for C2 amended: the populated example client is read back with
no fetch; the fresh client fetches on every call and stays unchanged. -/
theorem c2_getSchema_no_store_witness :
    (getSchema exClient).result = Except.ok exClient.schemas ∧
    (getSchema exClient).fetches = 0 ∧
    (getSchema freshClient).client = freshClient ∧
    (getSchema freshClient).fetches = 1 :=
  ⟨((c2_getSchema_no_store exClient).2.1 (by decide)).1,
   ((c2_getSchema_no_store exClient).2.1 (by decide)).2,
   (c2_getSchema_no_store freshClient).1,
   (c2_getSchema_no_store freshClient).2.2 (by decide)⟩

/-- C3 counterexample: two invocations of the Error Translator with the same
status code (`unknown`) and the same operation name (the same resolved
caller frame) produce different diagnostics, because the default branch
includes the underlying error text — contradicting the claim that the
diagnostics are a function of the (status-code, operation-name) pair
alone. -/
theorem c3_counterexample :
    GoErr.code { code := StatusCode.unknown, msg := "first failure" } =
      GoErr.code { code := StatusCode.unknown, msg := "second failure" } ∧
    grpcErr (some "pkg/provider.(*GRPCClient).ReadResource")
        (some { code := StatusCode.unknown, msg := "first failure" }) ≠
      grpcErr (some "pkg/provider.(*GRPCClient).ReadResource")
        (some { code := StatusCode.unknown, msg := "second failure" }) := by
  refine ⟨rfl, by decide⟩

/-- C3 amended: the Error Translator is a pure, deterministic function of
the status code, the error text, and the caller frame; but the operation
name is not supplied as an explicit parameter — it is recovered from the
runtime call stack (`runtime.Caller`), modelled here by the `caller`
argument — and the default branch also depends on the underlying error
text. Two invocations with the same status code, the same error text and
the same resolved caller frame produce identical diagnostics. -/
theorem c3_translator_deterministic (caller : Option String) (e1 e2 : GoErr)
    (hc : e1.code = e2.code) (hm : e1.msg = e2.msg) :
    grpcErr caller (some e1) = grpcErr caller (some e2) := by
  cases e1
  cases e2
  simp only at hc hm
  subst hc
  subst hm
  rfl

/-- Witness for C3 amended at concrete equal inputs. -/
theorem c3_translator_deterministic_witness :
    grpcErr (some "pkg/provider.(*GRPCClient).ReadResource")
        (some { code := StatusCode.unknown, msg := "boom" }) =
      grpcErr (some "pkg/provider.(*GRPCClient).ReadResource")
        (some { code := StatusCode.unknown, msg := "boom" }) :=
  c3_translator_deterministic (some "pkg/provider.(*GRPCClient).ReadResource")
    { code := StatusCode.unknown, msg := "boom" }
    { code := StatusCode.unknown, msg := "boom" } rfl rfl

/-- C4: the Error Translator classifies every input as follows — a nil
error yields an empty diagnostics sequence; an "unavailable" transport
error yields exactly one error diagnostic with summary "Plugin did not
respond" whose detail names the failing operation; "cancelled" yields
exactly one "Request cancelled" diagnostic naming the operation;
"unimplemented" yields exactly one "Unsupported plugin method" diagnostic
naming the operation; any other non-nil error yields exactly one "Plugin
error" diagnostic whose detail includes the operation name and the
underlying error text. (The operation name is the last path segment of the
caller frame recovered by `runtime.Caller`; the hypotheses assume that
frame is available, which holds whenever `grpcErr` is called from a plugin
method as its doc comment requires.) -/
theorem c4_translator_classification (name : String) (e : GoErr) :
    (∀ caller, grpcErr caller none = [])
  ∧ (e.code = StatusCode.unavailable →
      ∃ d, grpcErr (some name) (some e) = [d] ∧ d.severity = Severity.error ∧
        d.summary = "Plugin did not respond" ∧
        containsStr d.detail (lastPathSegment name))
  ∧ (e.code = StatusCode.canceled →
      ∃ d, grpcErr (some name) (some e) = [d] ∧ d.severity = Severity.error ∧
        d.summary = "Request cancelled" ∧
        containsStr d.detail (lastPathSegment name))
  ∧ (e.code = StatusCode.unimplemented →
      ∃ d, grpcErr (some name) (some e) = [d] ∧ d.severity = Severity.error ∧
        d.summary = "Unsupported plugin method" ∧
        containsStr d.detail (lastPathSegment name))
  ∧ (e.code ≠ StatusCode.unavailable → e.code ≠ StatusCode.canceled →
      e.code ≠ StatusCode.unimplemented →
      ∃ d, grpcErr (some name) (some e) = [d] ∧ d.severity = Severity.error ∧
        d.summary = "Plugin error" ∧
        containsStr d.detail (lastPathSegment name) ∧
        containsStr d.detail e.msg) := by
  obtain ⟨code, msg⟩ := e
  refine ⟨?_, ?_, ?_, ?_, ?_⟩
  · intro caller
    cases caller <;> rfl
  · intro h
    simp only at h
    subst h
    exact ⟨_, rfl, rfl, rfl,
      "The plugin encountered an error, and failed to respond to the ",
      " call. The plugin logs may contain more details.", rfl⟩
  · intro h
    simp only at h
    subst h
    exact ⟨_, rfl, rfl, rfl, "The ", " request was cancelled.", rfl⟩
  · intro h
    simp only at h
    subst h
    exact ⟨_, rfl, rfl, rfl, "The ", " method is not supported by this plugin.", rfl⟩
  · intro h1 h2 h3
    simp only at h1 h2 h3
    have hname : containsStr
        ("The plugin returned an unexpected error from " ++ lastPathSegment name
          ++ ": " ++ msg) (lastPathSegment name) :=
      ⟨"The plugin returned an unexpected error from ", ": " ++ msg, by
        rw [String.append_assoc]⟩
    have hmsg : containsStr
        ("The plugin returned an unexpected error from " ++ lastPathSegment name
          ++ ": " ++ msg) msg :=
      ⟨"The plugin returned an unexpected error from " ++ lastPathSegment name ++ ": ",
        "", (String.append_empty _).symm⟩
    cases code with
    | unavailable => exact absurd rfl h1
    | canceled => exact absurd rfl h2
    | unimplemented => exact absurd rfl h3
    | ok => exact ⟨_, rfl, rfl, rfl, hname, hmsg⟩
    | unknown => exact ⟨_, rfl, rfl, rfl, hname, hmsg⟩
    | invalidArgument => exact ⟨_, rfl, rfl, rfl, hname, hmsg⟩
    | deadlineExceeded => exact ⟨_, rfl, rfl, rfl, hname, hmsg⟩

/-- Witness for C4: each branch of the classification exercised at a
concrete caller frame and concrete errors of each status code. -/
theorem c4_translator_classification_witness :
    grpcErr (some readResourceFuncName) none = []
  ∧ (∃ d, grpcErr (some readResourceFuncName) (some exUnavailErr) = [d] ∧
      d.severity = Severity.error ∧ d.summary = "Plugin did not respond" ∧
      containsStr d.detail (lastPathSegment readResourceFuncName))
  ∧ (∃ d, grpcErr (some readResourceFuncName)
        (some { code := StatusCode.canceled, msg := "ctx" }) = [d] ∧
      d.severity = Severity.error ∧ d.summary = "Request cancelled" ∧
      containsStr d.detail (lastPathSegment readResourceFuncName))
  ∧ (∃ d, grpcErr (some readResourceFuncName)
        (some { code := StatusCode.unimplemented, msg := "ni" }) = [d] ∧
      d.severity = Severity.error ∧ d.summary = "Unsupported plugin method" ∧
      containsStr d.detail (lastPathSegment readResourceFuncName))
  ∧ (∃ d, grpcErr (some readResourceFuncName)
        (some { code := StatusCode.unknown, msg := "boom" }) = [d] ∧
      d.severity = Severity.error ∧ d.summary = "Plugin error" ∧
      containsStr d.detail (lastPathSegment readResourceFuncName) ∧
      containsStr d.detail "boom") :=
  ⟨(c4_translator_classification readResourceFuncName exUnavailErr).1
      (some readResourceFuncName),
   (c4_translator_classification readResourceFuncName exUnavailErr).2.1 rfl,
   (c4_translator_classification readResourceFuncName
      { code := StatusCode.canceled, msg := "ctx" }).2.2.1 rfl,
   (c4_translator_classification readResourceFuncName
      { code := StatusCode.unimplemented, msg := "ni" }).2.2.2.1 rfl,
   (c4_translator_classification readResourceFuncName
      { code := StatusCode.unknown, msg := "boom" }).2.2.2.2
      (by decide) (by decide) (by decide)⟩

/-- C6: for every read call in which the underlying server's read
invocation returns a transport error, `ReadResource` returns immediately
with diagnostics produced by the Error Translator for that error (for an
"unavailable" failure, containing "Plugin did not respond" referencing
"ReadResource") and with no new state in the response. -/
theorem c6_read_transport_error (c : GRPCClient)
    (server : ProtoReadReq → Except GoErr ProtoReadResp) (r : ReadResourceRequest)
    (req : ProtoReadReq) (ty : CtyType) (e : GoErr)
    (hbuild : buildReadRequest c r = ReqBuild.built req ty)
    (hserver : server req = Except.error e) :
    ReadResource c server r =
      Except.ok { newState := none, priv := []
                  diagnostics := grpcErr (some readResourceFuncName) (some e) }
  ∧ (e.code = StatusCode.unavailable →
      ∃ d, grpcErr (some readResourceFuncName) (some e) = [d] ∧
        d.summary = "Plugin did not respond" ∧ containsStr d.detail "ReadResource") := by
  constructor
  · unfold ReadResource
    simp only [hbuild, hserver]
  · intro h
    obtain ⟨code, msg⟩ := e
    simp only at h
    subst h
    refine ⟨_, rfl, rfl,
      "The plugin encountered an error, and failed to respond to the provider.(*GRPCClient).",
      " call. The plugin logs may contain more details.", ?_⟩
    decide

/-- Witness for C6: the populated example client, read request, and an
"unavailable" server failure. -/
theorem c6_read_transport_error_witness :
    ReadResource exClient exUnavailServer exReadReq =
      Except.ok { newState := none, priv := []
                  diagnostics := grpcErr (some readResourceFuncName) (some exUnavailErr) }
  ∧ (∃ d, grpcErr (some readResourceFuncName) (some exUnavailErr) = [d] ∧
      d.summary = "Plugin did not respond" ∧ containsStr d.detail "ReadResource") :=
  ⟨(c6_read_transport_error exClient exUnavailServer exReadReq exProtoReadReq
      widgetType exUnavailErr (by decide) rfl).1,
   (c6_read_transport_error exClient exUnavailServer exReadReq exProtoReadReq
      widgetType exUnavailErr (by decide) rfl).2 rfl⟩

/-- C7: for every read call on an adapter whose provider has no
provider-meta schema configured (the meta schema's block is absent), the
outgoing encoded request built by `ReadResource` contains no provider-meta
field at all; when a meta schema exists, the meta value is encoded against
its implied type and included. -/
theorem c7_provider_meta (c : GRPCClient) (r : ReadResourceRequest)
    (req : ProtoReadReq) (ty : CtyType) :
    (getProviderMetaSchema c = Except.ok { block := none } →
      buildReadRequest c r = ReqBuild.built req ty → req.providerMeta = none)
  ∧ (∀ mb, getProviderMetaSchema c = Except.ok { block := some mb } →
      buildReadRequest c r = ReqBuild.built req ty →
      ∃ mp, marshalTokens r.providerMeta mb.impliedType = Except.ok mp ∧
        req.providerMeta = some { msgPack := mp, json := [] }) := by
  constructor
  · intro hmeta hbuild
    unfold buildReadRequest at hbuild
    cases hrs : getResourceSchema c r.typeName with
    | error e => simp [hrs] at hbuild
    | ok resSchema =>
      simp only [hrs, hmeta] at hbuild
      cases hit : blockImpliedType resSchema.block with
      | error e => simp [hit] at hbuild
      | ok ty2 =>
        simp only [hit] at hbuild
        cases hm : marshalTokens r.priorState ty2 with
        | error err => simp [hm] at hbuild
        | ok mp =>
          simp only [hm, ReqBuild.built.injEq] at hbuild
          rw [← hbuild.1]
  · intro mb hmeta hbuild
    unfold buildReadRequest at hbuild
    cases hrs : getResourceSchema c r.typeName with
    | error e => simp [hrs] at hbuild
    | ok resSchema =>
      simp only [hrs, hmeta] at hbuild
      cases hit : blockImpliedType resSchema.block with
      | error e => simp [hit] at hbuild
      | ok ty2 =>
        simp only [hit] at hbuild
        cases hm : marshalTokens r.priorState ty2 with
        | error err => simp [hm] at hbuild
        | ok mp =>
          simp only [hm] at hbuild
          cases hmm : marshalTokens r.providerMeta mb.impliedType with
          | error err => simp [hmm] at hbuild
          | ok metaMP =>
            simp only [hmm, ReqBuild.built.injEq] at hbuild
            exact ⟨metaMP, rfl, by rw [← hbuild.1]⟩

/-- Witness for C7: the no-meta client omits the meta field; the meta
client includes the encoded meta value. -/
theorem c7_provider_meta_witness :
    exProtoReadReq.providerMeta = none
  ∧ (∃ mp, marshalTokens exReadReqMeta.providerMeta CtyType.stringT = Except.ok mp ∧
      (ProtoReadReq.mk "widget" (some { msgPack := encodeVal exWidgetValue }) [9]
        (some { msgPack := encodeVal (CtyValue.stringV "meta") })).providerMeta =
        some { msgPack := mp, json := [] }) :=
  ⟨(c7_provider_meta exClient exReadReq exProtoReadReq widgetType).1
      (by decide) (by decide),
   (c7_provider_meta exClientMeta exReadReqMeta
      (ProtoReadReq.mk "widget" (some { msgPack := encodeVal exWidgetValue }) [9]
        (some { msgPack := encodeVal (CtyValue.stringV "meta") }))
      widgetType).2 { impliedType := CtyType.stringT } (by decide) (by decide)⟩

/-- C9: for every read call in which the underlying server's invocation
succeeds but decoding the returned new state fails, `ReadResource` returns
the decode error in diagnostics with both the new-state payload and the
private blob left unset; the server's possibly-updated private blob is
relayed to the caller only when decoding of the new state succeeds. -/
theorem c9_read_decode_failure (c : GRPCClient)
    (server : ProtoReadReq → Except GoErr ProtoReadResp) (r : ReadResourceRequest)
    (req : ProtoReadReq) (ty : CtyType) (protoResp : ProtoReadResp)
    (hbuild : buildReadRequest c r = ReqBuild.built req ty)
    (hserver : server req = Except.ok protoResp) :
    (∀ err, decodeDynamicValue protoResp.newState ty = Except.error err →
      ReadResource c server r =
        Except.ok { newState := none, priv := []
                    diagnostics :=
                      protoResp.diagnostics.map (fun d => errDiag d.summary)
                        ++ [errDiag err] })
  ∧ (∀ st, decodeDynamicValue protoResp.newState ty = Except.ok st →
      ReadResource c server r =
        Except.ok { newState := some st, priv := protoResp.priv
                    diagnostics :=
                      protoResp.diagnostics.map (fun d => errDiag d.summary) }) := by
  constructor <;> intro x hx <;> unfold ReadResource <;> simp only [hbuild, hserver, hx]

/-- Witness for C9: against the example client, a server whose new state is
undecodable yields the decode diagnostic with state and private blob unset,
and a server whose new state decodes yields the state and relays the
private blob. -/
theorem c9_read_decode_failure_witness :
    ReadResource exClient exBadReadServer exReadReq =
      Except.ok { newState := none, priv := []
                  diagnostics := [errDiag "msgpack: malformed"] }
  ∧ ReadResource exClient exReadServer exReadReq =
      Except.ok { newState := some exWidgetValue, priv := [5]
                  diagnostics := [errDiag "deprecated attribute"] } := by
  constructor
  · have h := (c9_read_decode_failure exClient exBadReadServer exReadReq exProtoReadReq
      widgetType exBadReadResp (by decide) rfl).1 "msgpack: malformed" (by decide)
    simpa [exBadReadResp] using h
  · have h := (c9_read_decode_failure exClient exReadServer exReadReq exProtoReadReq
      widgetType exProtoReadResp (by decide) rfl).2 exWidgetValue (by decide)
    simpa [exProtoReadResp] using h

/-- The import loop only ever appends to the diagnostics it was given. -/
theorem importLoop_diags (c : GRPCClient) :
    ∀ (l : List ProtoImportedResource) (diags : List Diag)
      (acc : List ImportedResource) (resp : ImportResp),
      importLoop c diags acc l = Except.ok resp →
      ∃ tail, resp.diagnostics = diags ++ tail := by
  intro l
  induction l with
  | nil =>
    intro diags acc resp h
    simp [importLoop] at h
    exact ⟨[], by simp [← h]⟩
  | cons imp rest ih =>
    intro diags acc resp h
    simp only [importLoop] at h
    cases hd : decodeEntry c imp with
    | fatal m => rw [hd] at h; simp at h
    | bad err =>
      rw [hd] at h
      simp only [Except.ok.injEq] at h
      exact ⟨[errDiag err], by simp [← h]⟩
    | good res =>
      rw [hd] at h
      exact ih _ _ _ h

/-- C10: every protocol-reported diagnostic entry returned by the
underlying server is appended to the response's diagnostics as an
error-severity entry carrying only the original entry's summary, regardless
of the original entry's severity and discarding its detail, in both
`ReadResource` and `ImportResourceState`. -/
theorem c10_proto_diagnostics (c : GRPCClient)
    (serverR : ProtoReadReq → Except GoErr ProtoReadResp) (r : ReadResourceRequest)
    (serverI : ProtoImportReq → Except GoErr ProtoImportResp) (ir : ImportRR) :
    (∀ req ty protoResp resp,
      buildReadRequest c r = ReqBuild.built req ty →
      serverR req = Except.ok protoResp →
      ReadResource c serverR r = Except.ok resp →
      ∃ tail, resp.diagnostics =
        protoResp.diagnostics.map
          (fun d => { severity := Severity.error, summary := d.summary, detail := "" })
          ++ tail)
  ∧ (∀ protoResp resp,
      serverI { typeName := ir.typeName, id := ir.id } = Except.ok protoResp →
      ImportResourceState c serverI ir = Except.ok resp →
      ∃ tail, resp.diagnostics =
        protoResp.diagnostics.map
          (fun d => { severity := Severity.error, summary := d.summary, detail := "" })
          ++ tail) := by
  constructor
  · intro req ty protoResp resp hbuild hserver himp
    cases hd : decodeDynamicValue protoResp.newState ty with
    | error err =>
      have hread : ReadResource c serverR r =
          Except.ok { newState := none, priv := []
                      diagnostics :=
                        protoResp.diagnostics.map (fun d => errDiag d.summary)
                          ++ [errDiag err] } := by
        unfold ReadResource
        simp only [hbuild, hserver, hd]
      rw [himp] at hread
      simp only [Except.ok.injEq] at hread
      exact ⟨[errDiag err], by simp [hread, errDiag]⟩
    | ok st =>
      have hread : ReadResource c serverR r =
          Except.ok { newState := some st, priv := protoResp.priv
                      diagnostics :=
                        protoResp.diagnostics.map (fun d => errDiag d.summary) } := by
        unfold ReadResource
        simp only [hbuild, hserver, hd]
      rw [himp] at hread
      simp only [Except.ok.injEq] at hread
      exact ⟨[], by simp [hread, errDiag]⟩
  · intro protoResp resp hs himp
    unfold ImportResourceState at himp
    rw [hs] at himp
    have h := importLoop_diags c protoResp.importedResources
      (protoResp.diagnostics.map (fun d => errDiag d.summary)) [] resp himp
    simpa [errDiag] using h

/-- Witness for C10: a server-reported warning diagnostic with a detail
shows up in both operations' responses as an error-severity, summary-only
entry. -/
theorem c10_proto_diagnostics_witness :
    (∃ tail, (ImportResp.mk []
        [{ severity := Severity.error, summary := "deprecated attribute"
           detail := "" }]).diagnostics =
      (ProtoImportResp.mk []
        [{ severity := Severity.warning, summary := "deprecated attribute"
           detail := "attribute count is deprecated" }]).diagnostics.map
        (fun d => { severity := Severity.error, summary := d.summary, detail := "" }) ++ tail)
  ∧ (∃ tail,
      (ReadResourceResponse.mk (some exWidgetValue)
        [{ severity := Severity.error, summary := "deprecated attribute", detail := "" }]
        [5]).diagnostics =
      exProtoReadResp.diagnostics.map
        (fun d => { severity := Severity.error, summary := d.summary, detail := "" }) ++ tail) := by
  constructor
  · have h := (c10_proto_diagnostics exClient exReadServer exReadReq
      (fun _ => Except.ok { importedResources := []
                            diagnostics := [{ severity := Severity.warning
                                              summary := "deprecated attribute"
                                              detail := "attribute count is deprecated" }] })
      exImportReq).2
      { importedResources := []
        diagnostics := [{ severity := Severity.warning
                          summary := "deprecated attribute"
                          detail := "attribute count is deprecated" }] }
      { importedResources := []
        diagnostics := [{ severity := Severity.error, summary := "deprecated attribute"
                          detail := "" }] }
      rfl (by decide)
    exact h
  · exact (c10_proto_diagnostics exClient exReadServer exReadReq
      (fun _ => Except.ok ({} : ProtoImportResp)) exImportReq).1
      exProtoReadReq widgetType exProtoReadResp
      (ReadResourceResponse.mk (some exWidgetValue)
        [{ severity := Severity.error, summary := "deprecated attribute", detail := "" }]
        [5])
      (by decide) rfl (by decide)
